import Mathlib

/-!
Verification of the order-processing examples in the design-patterns-study
repository: the Order model variants, the OrderFacade, the PaymentProxy,
the OrderSubject (observer), the PaymentTemplate and the ConfigManager.

Amounts are modelled as integers (every concrete amount in the repository
is an integer); errors thrown with `new Error(msg)` are modelled as
`Except String` carrying the exact message string.
-/

namespace DPS

/-- The shared shape of the Order entity: an identifier, a numeric amount
and a status string.  The three variants of the repository differ only in
their constructor validation, modelled below as three smart constructors. -/
structure Order where
  id : String
  amount : Int
  status : String
  deriving Repr, DecidableEq

/-- Constructor of src/6-proxy-pattern/src/models/order.ts:
throws "Amount must be greater than zero" when amount <= 0, then
"Order ID is required" when the id is empty; default status "pending". -/
def Order.mkProxy (id : String) (amount : Int) : Except String Order :=
  if amount ≤ 0 then .error "Amount must be greater than zero"
  else if id = "" then .error "Order ID is required"
  else .ok { id := id, amount := amount, status := "pending" }

/-- Constructor of src/10-observer-pattern/src/models/order.ts:
throws "Valor inválido" when amount < 0, then "ID obrigatório" when the
id is empty; default status "pending". -/
def Order.mkObserver (id : String) (amount : Int) : Except String Order :=
  if amount < 0 then .error "Valor inválido"
  else if id = "" then .error "ID obrigatório"
  else .ok { id := id, amount := amount, status := "pending" }

/-- Constructor of the facade/template-method Order model
(src/unnamed/part_002, a models/order.ts): same validation as the
observer variant — amount < 0 then empty id; default status "pending". -/
def Order.mkFT (id : String) (amount : Int) : Except String Order :=
  if amount < 0 then .error "Valor inválido"
  else if id = "" then .error "ID obrigatório"
  else .ok { id := id, amount := amount, status := "pending" }

/-- Order.complete of the proxy and facade/template variants:
unconditionally overwrites status with "completed". -/
def Order.complete (o : Order) : Order :=
  { o with status := "completed" }

/-! ### Facade (src/11-facade-pattern/src/services/order-facade.ts)

The three collaborating services (payment, inventory, shipping) each
expose process(orderId, amount) returning a string; the facade is
modelled as a function of those three services.  The list of service
invocations performed by processOrder is returned alongside the result
so that call order can be stated. -/

/-- Tag naming which collaborator service a call went to. -/
inductive ServiceTag where
  | payment
  | inventory
  | shipping
  deriving Repr, DecidableEq

/-- The result record returned by OrderFacade.processOrder. -/
structure FacadeResult where
  transactionId : String
  status : String
  deriving Repr, DecidableEq

/-- OrderFacade.processOrder: calls payment.process(order.id, order.amount)
keeping its return value as the transactionId, then inventory.process and
shipping.process (return values discarded), then order.complete(), and
returns the record with the literal status "completed".  The third
component records the sequence of service calls made, in order. -/
def OrderFacade.processOrder
    (paymentService inventoryService shippingService : String → Int → String)
    (order : Order) :
    FacadeResult × Order × List (ServiceTag × String × Int) :=
  let transactionId := paymentService order.id order.amount
  let _ := inventoryService order.id order.amount
  let _ := shippingService order.id order.amount
  let completedOrder := order.complete
  ({ transactionId := transactionId, status := "completed" },
   completedOrder,
   [(ServiceTag.payment, order.id, order.amount),
    (ServiceTag.inventory, order.id, order.amount),
    (ServiceTag.shipping, order.id, order.amount)])

/-! ### Proxy (src/6-proxy-pattern/src/services/payment-proxy.ts)

The IPaymentGateway result record, the proxy cache (a JS Map modelled as
an insertion-ordered association list), and PaymentProxy.processPayment.
Each call reports how many times the wrapped real processor was invoked
(`0` or `1`) so that invocation counts can be stated. -/

/-- The record returned by IPaymentGateway.processPayment. -/
structure PayResult where
  transactionId : String
  status : String
  deriving Repr, DecidableEq

/-- Map.get on an association list: value of the first entry whose key
matches, as JS Map lookup. -/
def mapGet (m : List (String × PayResult)) (k : String) : Option PayResult :=
  (m.find? (fun kv => kv.1 = k)).map Prod.snd

/-- Map.set on an association list: replace the value in place when the
key exists, otherwise append (JS Map preserves insertion order). -/
def mapSet (m : List (String × PayResult)) (k : String) (v : PayResult) :
    List (String × PayResult) :=
  if (m.find? (fun kv => kv.1 = k)).isSome then
    m.map (fun kv => if kv.1 = k then (k, v) else kv)
  else
    m ++ [(k, v)]

/-- PaymentProxy state: the memoization cache and the user role supplied
at construction.  The wrapped real processor is passed to each call as a
function (amount, orderId) → PayResult. -/
structure PaymentProxy where
  cache : List (String × PayResult)
  userRole : String
  deriving Repr

/-- A freshly constructed PaymentProxy: empty cache, given role. -/
def PaymentProxy.new (userRole : String) : PaymentProxy :=
  { cache := [], userRole := userRole }

/-- PaymentProxy.processPayment(amount, orderId): access control first
(non-admin throws "Acesso negado: ..."), then cache lookup under the key
orderId ++ "_" ++ amount, then delegation to the real processor and
memoization.  Returns (result-or-error, new state, number of invocations
of the real processor during this call). -/
def PaymentProxy.processPayment (p : PaymentProxy)
    (realProcessor : Int → String → PayResult)
    (amount : Int) (orderId : String) :
    Except String PayResult × PaymentProxy × Nat :=
  if p.userRole ≠ "admin" then
    (.error "Acesso negado: apenas administradores podem processar pagamentos",
     p, 0)
  else
    let cacheKey := orderId ++ "_" ++ toString amount
    match mapGet p.cache cacheKey with
    | some cached => (.ok cached, p, 0)
    | none =>
      let result := realProcessor amount orderId
      (.ok result, { p with cache := mapSet p.cache cacheKey result }, 1)

/-- Runs a sequence of processPayment calls, threading the proxy state and
collecting each call's result together with the total number of
invocations of the wrapped real processor. -/
def PaymentProxy.runCalls (p : PaymentProxy)
    (realProcessor : Int → String → PayResult)
    (calls : List (Int × String)) :
    List (Except String PayResult) × PaymentProxy × Nat :=
  match calls with
  | [] => ([], p, 0)
  | (amount, orderId) :: rest =>
    let (r, p1, n1) := p.processPayment realProcessor amount orderId
    let (rs, p2, n2) := p1.runCalls realProcessor rest
    (r :: rs, p2, n1 + n2)

/-! ### Observer (src/10-observer-pattern/src/services/order-subject.ts)

Observers are identified by a natural number (JS object identity); the
behaviour of an observer's update method is an environment
`beh : Nat → String → Option String` mapping (observer, status) to
`some msg` when that update call throws msg and `none` when it returns
normally.  Each setStatus reports the list of update invocations it
performed (observer, status argument) and the exception, if any, that
aborted the loop. -/

/-- OrderSubject state: the ordered observer list and the held order. -/
structure OrderSubject where
  observers : List Nat
  order : Order
  deriving Repr, DecidableEq

/-- OrderSubject constructor: empty observer list, given order. -/
def OrderSubject.new (order : Order) : OrderSubject :=
  { observers := [], order := order }

/-- addObserver: push onto the observer array. -/
def OrderSubject.addObserver (s : OrderSubject) (o : Nat) : OrderSubject :=
  { s with observers := s.observers ++ [o] }

/-- removeObserver: indexOf (first occurrence) then splice one element
out when found; no change when absent. -/
def OrderSubject.removeObserver (s : OrderSubject) (o : Nat) : OrderSubject :=
  let index := s.observers.indexOf o
  if index < s.observers.length then
    { s with observers := s.observers.eraseIdx index }
  else s

/-- The notification loop of notify(): invoke each observer's update with
the order's current status, in array order; a throwing update aborts the
loop.  Returns the invocations performed (the thrower included) and the
propagated exception message, if any. -/
def notifyLoop (obs : List Nat) (status : String)
    (beh : Nat → String → Option String) :
    List (Nat × String) × Option String :=
  match obs with
  | [] => ([], none)
  | o :: rest =>
    match beh o status with
    | some e => ([(o, status)], some e)
    | none =>
      let tail := notifyLoop rest status beh
      ((o, status) :: tail.1, tail.2)

/-- setStatus: write the new status onto the order, then notify() — which
reads this.order.status, i.e. the value just written — over the current
observer list.  Returns the new state, the update invocations performed
and the exception, if any, propagated out of the loop. -/
def OrderSubject.setStatus (s : OrderSubject) (status : String)
    (beh : Nat → String → Option String) :
    OrderSubject × List (Nat × String) × Option String :=
  let order := { s.order with status := status }
  let run := notifyLoop s.observers order.status beh
  ({ s with order := order }, run.1, run.2)

/-- Runs a sequence of setStatus calls (none of whose observers throw),
collecting every update invocation performed. -/
def OrderSubject.runStatuses (s : OrderSubject) (statuses : List String)
    (beh : Nat → String → Option String) :
    OrderSubject × List (Nat × String) :=
  match statuses with
  | [] => (s, [])
  | st :: rest =>
    let one := s.setStatus st beh
    let more := one.1.runStatuses rest beh
    (more.1, one.2.1 ++ more.2)

/-! ### Template method (src/9-template-method-pattern /src/services/payment-template.ts)

PaymentTemplate.processPayment: validateOrder (throws on amount <= 0),
preparePayment, executePayment, updateOrderStatus (order.complete()).
The two abstract steps are parameters; the list of steps actually run is
returned so that "never invoked" can be stated. -/

/-- Payment details produced by preparePayment. -/
structure PaymentDetails where
  amount : Int
  method : String
  deriving Repr, DecidableEq

/-- Names of the steps of the template after validation. -/
inductive TemplateStep where
  | preparePayment
  | executePayment
  | updateOrderStatus
  deriving Repr, DecidableEq

/-- PaymentTemplate.processPayment over abstract preparePayment and
executePayment.  Returns (transaction-or-error, post-state of the order,
steps run after validation). -/
def PaymentTemplate.processPayment
    (preparePayment : Int → PaymentDetails)
    (executePayment : PaymentDetails → PayResult)
    (order : Order) :
    Except String PayResult × Order × List TemplateStep :=
  if order.amount ≤ 0 then
    (.error "Valor inválido para pagamento", order, [])
  else
    let paymentDetails := preparePayment order.amount
    let transaction := executePayment paymentDetails
    let completedOrder := order.complete
    (.ok transaction, completedOrder,
     [TemplateStep.preparePayment, TemplateStep.executePayment,
      TemplateStep.updateOrderStatus])

/-! ### Singleton (src/7-singleton-pattern (danger)/src/services/config-manager.ts)

getConfig returns a spread copy of the stored record, so copy-vs-alias
matters: records live on an explicit heap of addresses, the manager holds
the address of its stored record, and getConfig allocates a fresh address
holding a copy.  ConfigManagerInjected.getConfig/setConfig have the
identical bodies and are modelled by the same two functions below. -/

/-- The configuration record. -/
structure Config where
  apiKey : String
  timeout : Int
  deriving Repr, DecidableEq

/-- A manager together with the record heap it lives in: heap contents,
the next fresh address, and the address of this.config. -/
structure CMState where
  heap : Nat → Config
  next : Nat
  ref : Nat

/-- Writes one heap cell. -/
def heapWrite (h : Nat → Config) (a : Nat) (c : Config) : Nat → Config :=
  fun b => if b = a then c else h b

/-- getConfig: allocate a fresh record holding a copy of the two fields
of this.config (the spread { ...this.config }) and return its address. -/
def ConfigManager.getConfig (s : CMState) : Nat × CMState :=
  (s.next,
   { s with heap := heapWrite s.heap s.next (s.heap s.ref),
            next := s.next + 1 })

/-- setConfig: assign both fields of this.config in place. -/
def ConfigManager.setConfig (s : CMState) (apiKey : String) (timeout : Int) :
    CMState :=
  { s with heap := heapWrite s.heap s.ref ⟨apiKey, timeout⟩ }

/-- ConfigManagerInjected.getConfig — the body is identical to
ConfigManager.getConfig (return { ...this.config }). -/
def ConfigManagerInjected.getConfig (s : CMState) : Nat × CMState :=
  (s.next,
   { s with heap := heapWrite s.heap s.next (s.heap s.ref),
            next := s.next + 1 })

/-- ConfigManagerInjected.setConfig — identical body to
ConfigManager.setConfig. -/
def ConfigManagerInjected.setConfig (s : CMState) (apiKey : String)
    (timeout : Int) : CMState :=
  { s with heap := heapWrite s.heap s.ref ⟨apiKey, timeout⟩ }

/-- A client mutating a record it holds a reference to: writes that heap
cell.  The managers never do this except through setConfig. -/
def clientMutate (s : CMState) (a : Nat) (c : Config) : CMState :=
  { s with heap := heapWrite s.heap a c }

/-! ### Concrete collaborators from the repository, used as instantiation
inputs below. -/

/-- PaymentService.process of src/11-facade-pattern: fixed tag. -/
def PaymentService.process : String → Int → String :=
  fun _ _ => "payment-processed"

/-- InventoryService.process of src/11-facade-pattern: fixed tag. -/
def InventoryService.process : String → Int → String :=
  fun _ _ => "inventory-updated"

/-- ShippingService.process of src/11-facade-pattern: fixed tag. -/
def ShippingService.process : String → Int → String :=
  fun _ _ => "shipping-processed"

/-- RealOrderProcessorPayment.processPayment of src/6-proxy-pattern:
transactionId txn_<orderId>, status success. -/
def RealOrderProcessorPayment.processPayment : Int → String → PayResult :=
  fun _ orderId => { transactionId := "txn_" ++ orderId, status := "success" }

/-- CreditPayment.preparePayment (src/unnamed/part_003). -/
def CreditPayment.preparePayment : Int → PaymentDetails :=
  fun amount => { amount := amount, method := "credit" }

/-- CreditPayment.executePayment (src/unnamed/part_003); the
Date.now()-based transaction id is abstracted to a fixed string. -/
def CreditPayment.executePayment : PaymentDetails → PayResult :=
  fun _ => { transactionId := "txn-0", status := "success" }

/-- A sample order, as built by the entry points: new Order("12345", 100). -/
def sampleOrder : Order :=
  { id := "12345", amount := 100, status := "pending" }

/-- A subject holding three observers, for concrete instantiation. -/
def sampleSubject : OrderSubject :=
  { observers := [1, 2, 3], order := sampleOrder }

/-- An observer environment in which observer 2 throws "boom" and all
others return normally. -/
def behThrowAt2 : Nat → String → Option String :=
  fun o _ => if o = 2 then some "boom" else none

/-- The observer environment in which every update returns normally (the
repository's EmailNotifier/SmsNotifier only log). -/
def behNone : Nat → String → Option String :=
  fun _ _ => none

/-- The state built by the ConfigManager private constructor: one stored
record { apiKey: "default-key", timeout: 3000 } at address 0. -/
def ConfigManager.initState : CMState :=
  { heap := fun _ => { apiKey := "default-key", timeout := 3000 },
    next := 1, ref := 0 }

/-! ## Theorems -/

/-- C1: for every Order with non-empty id and valid (non-negative) amount
and any collaborating services, OrderFacade.processOrder calls the
payment service first, then inventory, then shipping (their return values
discarded), completes the order, and returns the payment service's return
value as transactionId together with the literal status "completed". -/
theorem facade_processOrder_spec
    (paymentService inventoryService shippingService : String → Int → String)
    (order : Order) (hid : order.id ≠ "") (hamt : 0 ≤ order.amount) :
    OrderFacade.processOrder paymentService inventoryService shippingService
        order =
      ({ transactionId := paymentService order.id order.amount,
         status := "completed" },
       { order with status := "completed" },
       [(ServiceTag.payment, order.id, order.amount),
        (ServiceTag.inventory, order.id, order.amount),
        (ServiceTag.shipping, order.id, order.amount)]) := rfl

/-- Witness for C1: the facade run on new Order("12345", 100) with the
repository's three services. -/
theorem facade_processOrder_spec_witness :
    sampleOrder.id ≠ "" ∧ (0 : Int) ≤ sampleOrder.amount ∧
    OrderFacade.processOrder PaymentService.process InventoryService.process
        ShippingService.process sampleOrder =
      ({ transactionId := PaymentService.process sampleOrder.id
           sampleOrder.amount, status := "completed" },
       { sampleOrder with status := "completed" },
       [(ServiceTag.payment, sampleOrder.id, sampleOrder.amount),
        (ServiceTag.inventory, sampleOrder.id, sampleOrder.amount),
        (ServiceTag.shipping, sampleOrder.id, sampleOrder.amount)]) :=
  ⟨by decide, by decide,
   facade_processOrder_spec PaymentService.process InventoryService.process
     ShippingService.process sampleOrder (by decide) (by decide)⟩

/-- C2 counterexample: the proxy-pattern Order rejects amount 0 (its
check is amount <= 0), so construction with a non-negative amount of
exactly zero and a non-empty identifier does not succeed in every
variant. -/
theorem order_zero_amount_counterexample :
    Order.mkProxy "order123" 0 = .error "Amount must be greater than zero" :=
  rfl

/-- C2 amended: with a non-empty identifier, construction succeeds with
initial status "pending" for every strictly positive amount in the
proxy-pattern variant (which rejects zero), and for every non-negative
amount (zero included) in the observer and facade/template variants. -/
theorem order_construction_defaults (id : String) (amount : Int)
    (hid : id ≠ "") :
    (0 < amount → Order.mkProxy id amount =
      .ok { id := id, amount := amount, status := "pending" }) ∧
    (0 ≤ amount → Order.mkObserver id amount =
      .ok { id := id, amount := amount, status := "pending" }) ∧
    (0 ≤ amount → Order.mkFT id amount =
      .ok { id := id, amount := amount, status := "pending" }) := by
  refine ⟨fun h => ?_, fun h => ?_, fun h => ?_⟩
  · unfold Order.mkProxy
    rw [if_neg (by omega), if_neg hid]
  · unfold Order.mkObserver
    rw [if_neg (by omega), if_neg hid]
  · unfold Order.mkFT
    rw [if_neg (by omega), if_neg hid]

/-- Witness for the amended C2: id "order123" with amounts 1 and 0. -/
theorem order_construction_defaults_witness :
    ("order123" : String) ≠ "" ∧
    Order.mkProxy "order123" 1 =
      .ok { id := "order123", amount := 1, status := "pending" } ∧
    Order.mkObserver "order123" 0 =
      .ok { id := "order123", amount := 0, status := "pending" } ∧
    Order.mkFT "order123" 0 =
      .ok { id := "order123", amount := 0, status := "pending" } :=
  ⟨by decide,
   (order_construction_defaults "order123" 1 (by decide)).1 (by decide),
   (order_construction_defaults "order123" 0 (by decide)).2.1 (by decide),
   (order_construction_defaults "order123" 0 (by decide)).2.2 (by decide)⟩

/-- C3: in every variant, a negative amount makes construction fail with
that variant's invalid-amount error, and an empty identifier with an
otherwise valid amount makes it fail with that variant's required-id
error; in both cases no order is produced (the result is an error, never
an ok). -/
theorem order_construction_failures (id : String) (amount : Int) :
    (amount < 0 → Order.mkProxy id amount =
      .error "Amount must be greater than zero") ∧
    (amount < 0 → Order.mkObserver id amount = .error "Valor inválido") ∧
    (amount < 0 → Order.mkFT id amount = .error "Valor inválido") ∧
    (id = "" → 0 < amount → Order.mkProxy id amount =
      .error "Order ID is required") ∧
    (id = "" → 0 ≤ amount → Order.mkObserver id amount =
      .error "ID obrigatório") ∧
    (id = "" → 0 ≤ amount → Order.mkFT id amount =
      .error "ID obrigatório") := by
  refine ⟨fun h => ?_, fun h => ?_, fun h => ?_,
    fun he h => ?_, fun he h => ?_, fun he h => ?_⟩
  · unfold Order.mkProxy; rw [if_pos (by omega)]
  · unfold Order.mkObserver; rw [if_pos (by omega)]
  · unfold Order.mkFT; rw [if_pos (by omega)]
  · unfold Order.mkProxy; rw [if_neg (by omega), if_pos he]
  · unfold Order.mkObserver; rw [if_neg (by omega), if_pos he]
  · unfold Order.mkFT; rw [if_neg (by omega), if_pos he]

/-- Witness for C3: amount -1 and the empty identifier. -/
theorem order_construction_failures_witness :
    Order.mkProxy "order123" (-1) =
      .error "Amount must be greater than zero" ∧
    Order.mkObserver "order123" (-1) = .error "Valor inválido" ∧
    Order.mkFT "order123" (-1) = .error "Valor inválido" ∧
    Order.mkProxy "" 1 = .error "Order ID is required" ∧
    Order.mkObserver "" 0 = .error "ID obrigatório" ∧
    Order.mkFT "" 0 = .error "ID obrigatório" :=
  ⟨(order_construction_failures "order123" (-1)).1 (by decide),
   (order_construction_failures "order123" (-1)).2.1 (by decide),
   (order_construction_failures "order123" (-1)).2.2.1 (by decide),
   (order_construction_failures "" 1).2.2.2.1 rfl (by decide),
   (order_construction_failures "" 0).2.2.2.2.1 rfl (by decide),
   (order_construction_failures "" 0).2.2.2.2.2 rfl (by decide)⟩

/-- C8: Order.complete is idempotent — completing twice yields exactly
the state of completing once, the resulting status is the fixed terminal
value "completed", and id and amount are unchanged. -/
theorem order_complete_idempotent (o : Order) :
    o.complete.complete = o.complete ∧
    o.complete.status = "completed" ∧
    o.complete.id = o.id ∧ o.complete.amount = o.amount :=
  ⟨rfl, rfl, rfl, rfl⟩

/-- C9: for every order with amount <= 0 (zero included — which the
facade/template Order constructor accepts), PaymentTemplate.processPayment
fails with the invalid-amount error before any payment step: the order is
returned unchanged and none of preparePayment, executePayment,
updateOrderStatus is run. -/
theorem template_invalid_amount_atomic
    (preparePayment : Int → PaymentDetails)
    (executePayment : PaymentDetails → PayResult)
    (order : Order) (h : order.amount ≤ 0) :
    PaymentTemplate.processPayment preparePayment executePayment order =
      (.error "Valor inválido para pagamento", order, []) := by
  unfold PaymentTemplate.processPayment
  rw [if_pos h]

/-- Witness for C9: an order of amount 0 — accepted by the constructor
of the same variant — run through CreditPayment's hooks. -/
theorem template_invalid_amount_atomic_witness :
    Order.mkFT "order123" 0 =
      .ok { id := "order123", amount := 0, status := "pending" } ∧
    ({ id := "order123", amount := 0, status := "pending" } : Order).amount
      ≤ 0 ∧
    PaymentTemplate.processPayment CreditPayment.preparePayment
        CreditPayment.executePayment
        { id := "order123", amount := 0, status := "pending" } =
      (.error "Valor inválido para pagamento",
       { id := "order123", amount := 0, status := "pending" }, []) :=
  ⟨rfl, by decide,
   template_invalid_amount_atomic CreditPayment.preparePayment
     CreditPayment.executePayment
     { id := "order123", amount := 0, status := "pending" } (by decide)⟩

/-- A single non-admin processPayment call: AccessDenied error, state
unchanged, zero invocations of the real processor. -/
theorem processPayment_non_admin (p : PaymentProxy)
    (realProcessor : Int → String → PayResult) (amount : Int)
    (orderId : String) (h : p.userRole ≠ "admin") :
    p.processPayment realProcessor amount orderId =
      (.error
        "Acesso negado: apenas administradores podem processar pagamentos",
       p, 0) := by
  unfold PaymentProxy.processPayment
  rw [if_pos h]

/-- C4: a PaymentProxy whose role is not "admin" answers every call of
any sequence with the AccessDenied error and never invokes the wrapped
real processor (zero invocations over the whole sequence). -/
theorem proxy_non_admin_denied (p : PaymentProxy)
    (realProcessor : Int → String → PayResult)
    (calls : List (Int × String)) (h : p.userRole ≠ "admin") :
    (p.runCalls realProcessor calls).2.2 = 0 ∧
    ∀ r ∈ (p.runCalls realProcessor calls).1,
      r = .error
        "Acesso negado: apenas administradores podem processar pagamentos" := by
  induction calls generalizing p with
  | nil => simp [PaymentProxy.runCalls]
  | cons c rest ih =>
    obtain ⟨amount, orderId⟩ := c
    have step := processPayment_non_admin p realProcessor amount orderId h
    have tail := ih p h
    simp only [PaymentProxy.runCalls, step, List.mem_cons, Nat.zero_add]
    exact ⟨tail.1, fun r hr => hr.elim (fun he => he) (fun hm => tail.2 r hm)⟩

/-- Witness for C4: a "guest" proxy called twice with (100, "order123"). -/
theorem proxy_non_admin_denied_witness :
    (PaymentProxy.new "guest").userRole ≠ "admin" ∧
    ((PaymentProxy.new "guest").runCalls
        RealOrderProcessorPayment.processPayment
        [(100, "order123"), (100, "order123")]).2.2 = 0 ∧
    ∀ r ∈ ((PaymentProxy.new "guest").runCalls
        RealOrderProcessorPayment.processPayment
        [(100, "order123"), (100, "order123")]).1,
      r = .error
        "Acesso negado: apenas administradores podem processar pagamentos" :=
  ⟨by decide,
   (proxy_non_admin_denied (PaymentProxy.new "guest")
     RealOrderProcessorPayment.processPayment
     [(100, "order123"), (100, "order123")] (by decide)).1,
   (proxy_non_admin_denied (PaymentProxy.new "guest")
     RealOrderProcessorPayment.processPayment
     [(100, "order123"), (100, "order123")] (by decide)).2⟩

/-- C5: from a freshly constructed admin proxy, two successive calls with
the identical (orderId, amount) pair invoke the real processor exactly
once: the first call delegates (one invocation) and memoizes the result
under the key orderId ++ "_" ++ amount, the second returns that memoized
result with zero invocations and leaves the state unchanged. -/
theorem proxy_admin_cache_hit
    (realProcessor : Int → String → PayResult) (amount : Int)
    (orderId : String) :
    ((PaymentProxy.new "admin").processPayment realProcessor amount
        orderId).1 = .ok (realProcessor amount orderId) ∧
    ((PaymentProxy.new "admin").processPayment realProcessor amount
        orderId).2.2 = 1 ∧
    mapGet ((PaymentProxy.new "admin").processPayment realProcessor amount
        orderId).2.1.cache (orderId ++ "_" ++ toString amount) =
      some (realProcessor amount orderId) ∧
    (((PaymentProxy.new "admin").processPayment realProcessor amount
        orderId).2.1.processPayment realProcessor amount orderId) =
      (.ok (realProcessor amount orderId),
       ((PaymentProxy.new "admin").processPayment realProcessor amount
         orderId).2.1, 0) := by
  have hrole : ¬((PaymentProxy.new "admin").userRole ≠ "admin") :=
    fun h => h rfl
  have hget : mapGet (PaymentProxy.new "admin").cache
      (orderId ++ "_" ++ toString amount) = none := rfl
  have hfirst : (PaymentProxy.new "admin").processPayment realProcessor
      amount orderId =
      (.ok (realProcessor amount orderId),
       { cache := [(orderId ++ "_" ++ toString amount,
                    realProcessor amount orderId)], userRole := "admin" },
       1) := by
    unfold PaymentProxy.processPayment
    rw [if_neg hrole]
    simp [PaymentProxy.new, mapGet, mapSet]
  have hget2 : mapGet
      [(orderId ++ "_" ++ toString amount, realProcessor amount orderId)]
      (orderId ++ "_" ++ toString amount) =
      some (realProcessor amount orderId) := by
    simp [mapGet, List.find?]
  have hsecond :
      (({ cache := [(orderId ++ "_" ++ toString amount,
                     realProcessor amount orderId)],
          userRole := "admin" } : PaymentProxy).processPayment realProcessor
        amount orderId) =
      (.ok (realProcessor amount orderId),
       { cache := [(orderId ++ "_" ++ toString amount,
                    realProcessor amount orderId)], userRole := "admin" },
       0) := by
    unfold PaymentProxy.processPayment
    rw [if_neg (fun h => h rfl)]
    simp only [hget2]
  rw [hfirst]
  exact ⟨rfl, rfl, hget2, hsecond⟩

/-- Folding addObserver appends the added observers, in order. -/
theorem foldl_addObserver_observers (adds : List Nat) (s : OrderSubject) :
    (adds.foldl OrderSubject.addObserver s).observers =
      s.observers ++ adds := by
  induction adds generalizing s with
  | nil => simp
  | cons a rest ih =>
    simp [List.foldl_cons, ih, OrderSubject.addObserver]

/-- removeObserver erases the first occurrence of the observer. -/
theorem removeObserver_observers (s : OrderSubject) (x : Nat) :
    (s.removeObserver x).observers = s.observers.erase x := by
  unfold OrderSubject.removeObserver
  by_cases h : s.observers.indexOf x < s.observers.length
  · rw [if_pos h]
    simp [List.eraseIdx_indexOf_eq_erase]
  · rw [if_neg h]
    have hx : x ∉ s.observers := fun hm => h (List.indexOf_lt_length.mpr hm)
    rw [List.erase_of_not_mem hx]

/-- Every update invocation recorded by the notification loop names an
observer of the list and carries the status argument. -/
theorem notifyLoop_calls_mem (obs : List Nat) (st : String)
    (beh : Nat → String → Option String) :
    ∀ c ∈ (notifyLoop obs st beh).1, c.1 ∈ obs ∧ c.2 = st := by
  induction obs with
  | nil => intro c hc; simp [notifyLoop] at hc
  | cons o rest ih =>
    intro c hc
    cases hbeh : beh o st with
    | some e =>
      simp only [notifyLoop, hbeh, List.mem_singleton] at hc
      exact hc ▸ ⟨List.mem_cons_self o rest, rfl⟩
    | none =>
      simp only [notifyLoop, hbeh, List.mem_cons] at hc
      rcases hc with hc | hc
      · exact hc ▸ ⟨List.mem_cons_self o rest, rfl⟩
      · obtain ⟨h1, h2⟩ := ih c hc
        exact ⟨List.mem_cons_of_mem o h1, h2⟩

/-- When no observer of the list throws, the loop invokes them all, in
order, and propagates no exception. -/
theorem notifyLoop_all_none (obs : List Nat) (st : String)
    (beh : Nat → String → Option String)
    (h : ∀ o ∈ obs, beh o st = none) :
    notifyLoop obs st beh = (obs.map (fun o => (o, st)), none) := by
  induction obs with
  | nil => rfl
  | cons o rest ih =>
    have ho : beh o st = none := h o (List.mem_cons_self o rest)
    have hrest := ih (fun o hm => h o (List.mem_cons_of_mem _ hm))
    simp [notifyLoop, ho, hrest]

/-- A throwing observer aborts the loop: the observers before it and the
thrower itself are invoked, the rest are not, and the exception
propagates. -/
theorem notifyLoop_throws (pre : List Nat) (bad : Nat) (post : List Nat)
    (st : String) (e : String) (beh : Nat → String → Option String)
    (hpre : ∀ o ∈ pre, beh o st = none) (hbad : beh bad st = some e) :
    notifyLoop (pre ++ bad :: post) st beh =
      (pre.map (fun o => (o, st)) ++ [(bad, st)], some e) := by
  induction pre with
  | nil => simp [notifyLoop, hbad]
  | cons o rest ih =>
    have ho : beh o st = none := hpre o (List.mem_cons_self o rest)
    have hrest := ih (fun o hm => hpre o (List.mem_cons_of_mem _ hm))
    simp [notifyLoop, ho, hrest]

/-- setStatus, written as the pair of its state update and the loop run
on the value just written. -/
theorem setStatus_eq (s : OrderSubject) (st : String)
    (beh : Nat → String → Option String) :
    s.setStatus st beh =
      ({ s with order := { s.order with status := st } },
       notifyLoop s.observers st beh) := rfl

/-- C7: setStatus writes the new status onto the order and then invokes
the currently registered observers in registration order with the new
status.  The write happens first: the status is the new value even when
an observer throws.  When no observer throws, every observer is invoked
and no exception propagates; when an observer throws, the observers
registered after it are not invoked and the exception propagates. -/
theorem observer_setStatus_spec (s : OrderSubject) (st : String)
    (beh : Nat → String → Option String) :
    (s.setStatus st beh).1.order.status = st ∧
    (s.setStatus st beh).1.observers = s.observers ∧
    ((∀ o ∈ s.observers, beh o st = none) →
      (s.setStatus st beh).2 = (s.observers.map (fun o => (o, st)), none)) ∧
    (∀ pre bad post e, s.observers = pre ++ bad :: post →
      (∀ o ∈ pre, beh o st = none) → beh bad st = some e →
      (s.setStatus st beh).2 =
        (pre.map (fun o => (o, st)) ++ [(bad, st)], some e)) := by
  rw [setStatus_eq]
  refine ⟨rfl, rfl, fun h => notifyLoop_all_none s.observers st beh h,
    fun pre bad post e hobs hpre hbad => ?_⟩
  rw [hobs]
  exact notifyLoop_throws pre bad post st e beh hpre hbad

/-- Witness for C7: a subject with observers [1, 2, 3] and observer 2
throwing "boom": observers 1 and 2 are invoked with the new status, 3 is
not, and the order's status is the new value. -/
theorem observer_setStatus_spec_witness :
    (sampleSubject.setStatus "shipped" behThrowAt2).1.order.status =
      "shipped" ∧
    (sampleSubject.setStatus "shipped" behThrowAt2).2 =
      ([(1, "shipped"), (2, "shipped")], some "boom") := by
  refine ⟨(observer_setStatus_spec sampleSubject "shipped" behThrowAt2).1, ?_⟩
  have h := (observer_setStatus_spec sampleSubject "shipped"
    behThrowAt2).2.2.2 [1] 2 [3] "boom" rfl (by decide) rfl
  simpa using h

/-- Every update invocation collected over a sequence of setStatus calls
names an observer of the subject. -/
theorem runStatuses_calls_mem (statuses : List String) (s : OrderSubject)
    (beh : Nat → String → Option String) :
    ∀ c ∈ (s.runStatuses statuses beh).2, c.1 ∈ s.observers := by
  induction statuses generalizing s with
  | nil => intro c hc; simp [OrderSubject.runStatuses] at hc
  | cons st rest ih =>
    intro c hc
    rw [OrderSubject.runStatuses, setStatus_eq] at hc
    simp only [List.mem_append] at hc
    rcases hc with hc | hc
    · exact (notifyLoop_calls_mem s.observers st beh c hc).1
    · exact ih { s with order := { s.order with status := st } } c hc

/-- With non-throwing observers, every registered observer is invoked
with each status of the sequence. -/
theorem runStatuses_all_invoked (statuses : List String) (s : OrderSubject)
    (beh : Nat → String → Option String) (hbeh : ∀ o st, beh o st = none) :
    ∀ st ∈ statuses, ∀ y ∈ s.observers,
      (y, st) ∈ (s.runStatuses statuses beh).2 := by
  induction statuses generalizing s with
  | nil => intro st hst; simp at hst
  | cons st0 rest ih =>
    intro st hst y hy
    rw [OrderSubject.runStatuses, setStatus_eq,
      notifyLoop_all_none s.observers st0 beh (fun o _ => hbeh o st0)]
    simp only [List.mem_append]
    rcases List.mem_cons.mp hst with hst | hst
    · left
      rw [hst]
      exact List.mem_map_of_mem (fun o => (o, st0)) hy
    · right
      exact ih { s with order := { s.order with status := st0 } } st hst y hy

/-- C6 (amended: the removed observer was registered at most once): after
any sequence of addObserver calls registering x at most once, followed by
removeObserver(x), no subsequent setStatus call ever invokes x, while
every other added observer is still invoked with every status set. -/
theorem observer_removed_never_notified (order : Order) (adds : List Nat)
    (x : Nat) (hcount : adds.count x ≤ 1) :
    (∀ (beh : Nat → String → Option String) (statuses : List String),
      ∀ c ∈ (((adds.foldl OrderSubject.addObserver
          (OrderSubject.new order)).removeObserver x).runStatuses statuses
          beh).2, c.1 ≠ x) ∧
    (∀ (beh : Nat → String → Option String) (statuses : List String),
      (∀ o st, beh o st = none) →
      ∀ st ∈ statuses, ∀ y ∈ adds, y ≠ x →
        (y, st) ∈ (((adds.foldl OrderSubject.addObserver
          (OrderSubject.new order)).removeObserver x).runStatuses statuses
          beh).2) := by
  have hobs : ((adds.foldl OrderSubject.addObserver
      (OrderSubject.new order)).removeObserver x).observers =
      adds.erase x := by
    rw [removeObserver_observers, foldl_addObserver_observers]
    rfl
  have hxnot : x ∉ adds.erase x := by
    intro hm
    have hc := List.count_erase_self x adds
    have hpos := List.count_pos_iff.mpr hm
    omega
  constructor
  · intro beh statuses c hc hcx
    have := runStatuses_calls_mem statuses _ beh c hc
    rw [hobs] at this
    exact hxnot (hcx ▸ this)
  · intro beh statuses hbeh st hst y hy hyx
    have hmem : y ∈ ((adds.foldl OrderSubject.addObserver
        (OrderSubject.new order)).removeObserver x).observers := by
      rw [hobs]
      exact (List.mem_erase_of_ne hyx).mpr hy
    exact runStatuses_all_invoked statuses _ beh hbeh st hst y hmem

/-- Counterexample to C6 as stated: the sequence addObserver(0),
addObserver(0), removeObserver(0) leaves one registration of observer 0
in place (removeObserver splices out only the first occurrence), and the
subsequent setStatus("shipped") does invoke observer 0. -/
theorem observer_removed_counterexample :
    ((0 : Nat), "shipped") ∈
      (((([0, 0] : List Nat).foldl OrderSubject.addObserver
        (OrderSubject.new sampleOrder)).removeObserver 0).setStatus
        "shipped" behNone).2.1 := by decide

/-- Witness for the amended C6: adds [1, 2], removed observer 2, one
subsequent setStatus("shipped"): observer 2 is not invoked, observer 1
is. -/
theorem observer_removed_never_notified_witness :
    (([1, 2] : List Nat).count 2 ≤ 1) ∧
    (((2 : Nat), "shipped") ∉
      (((([1, 2] : List Nat).foldl OrderSubject.addObserver
        (OrderSubject.new sampleOrder)).removeObserver 2).runStatuses
        ["shipped"] behNone).2) ∧
    (((1 : Nat), "shipped") ∈
      (((([1, 2] : List Nat).foldl OrderSubject.addObserver
        (OrderSubject.new sampleOrder)).removeObserver 2).runStatuses
        ["shipped"] behNone).2) :=
  ⟨by decide,
   fun hmem => (observer_removed_never_notified sampleOrder [1, 2] 2
     (by decide)).1 behNone ["shipped"] (2, "shipped") hmem rfl,
   (observer_removed_never_notified sampleOrder [1, 2] 2 (by decide)).2
     behNone ["shipped"] (fun _ _ => rfl) "shipped" (by decide) 1
     (by decide) (by decide)⟩

/-- C10: getConfig returns a fresh copy of the stored configuration: the
returned record lives at a fresh address distinct from the stored one and
holds the stored values; mutating the returned record leaves the stored
configuration unchanged, a subsequent getConfig still returns the
original stored values, getConfig itself never changes the stored
record, and the stored record does change through setConfig.
ConfigManagerInjected's getConfig and setConfig have the identical
bodies, so the same holds of it (last two conjuncts). -/
theorem configManager_getConfig_fresh_copy (s : CMState) (apiKey : String)
    (timeout : Int) (c : Config) (h : s.ref < s.next) :
    (ConfigManager.getConfig s).1 ≠ s.ref ∧
    (ConfigManager.getConfig s).2.ref = s.ref ∧
    (ConfigManager.getConfig s).2.heap (ConfigManager.getConfig s).1 =
      s.heap s.ref ∧
    (ConfigManager.getConfig s).2.heap s.ref = s.heap s.ref ∧
    (clientMutate (ConfigManager.getConfig s).2
        (ConfigManager.getConfig s).1 c).heap s.ref = s.heap s.ref ∧
    (ConfigManager.getConfig (clientMutate (ConfigManager.getConfig s).2
        (ConfigManager.getConfig s).1 c)).2.heap
      (ConfigManager.getConfig (clientMutate (ConfigManager.getConfig s).2
        (ConfigManager.getConfig s).1 c)).1 = s.heap s.ref ∧
    (ConfigManager.setConfig s apiKey timeout).heap s.ref =
      { apiKey := apiKey, timeout := timeout } ∧
    ConfigManagerInjected.getConfig s = ConfigManager.getConfig s ∧
    ConfigManagerInjected.setConfig s apiKey timeout =
      ConfigManager.setConfig s apiKey timeout := by
  have h1 : s.ref ≠ s.next := Nat.ne_of_lt h
  refine ⟨fun he => h1 he.symm, rfl, ?_, ?_, ?_, ?_, ?_, rfl, rfl⟩
  · simp [ConfigManager.getConfig, heapWrite]
  · simp [ConfigManager.getConfig, heapWrite, h1]
  · simp [ConfigManager.getConfig, clientMutate, heapWrite, h1]
  · simp [ConfigManager.getConfig, clientMutate, heapWrite, h1]
  · simp [ConfigManager.setConfig, heapWrite]

/-- Witness for C10: the initial ConfigManager state (stored record
{ apiKey: "default-key", timeout: 3000 } at address 0): a client
overwriting the record returned by getConfig with { "hacked", 1 } leaves
the stored configuration unchanged. -/
theorem configManager_getConfig_fresh_copy_witness :
    ConfigManager.initState.ref < ConfigManager.initState.next ∧
    (clientMutate (ConfigManager.getConfig ConfigManager.initState).2
        (ConfigManager.getConfig ConfigManager.initState).1
        { apiKey := "hacked", timeout := 1 }).heap
      ConfigManager.initState.ref =
      ConfigManager.initState.heap ConfigManager.initState.ref :=
  ⟨by decide,
   (configManager_getConfig_fresh_copy ConfigManager.initState "test-key"
     1000 { apiKey := "hacked", timeout := 1 }
     (by decide)).2.2.2.2.1⟩

end DPS
